import Mathlib

/-
Verification of the rust-jvm interpreter against its specification.

The development shallowly embeds the Rust sources:
  - model/src/class.rs        (TypeSignature, MethodSignature, ClassConstant, Display)
  - src/vm/eval/getstatic.rs  (getstatic_eval)
  - src/vm/eval/lconst.rs     (lconst_eval)
  - vm/src/eval/dastore.rs    (dastore_eval)
  - vm/src/eval/monitorenter.rs (monitorenter_eval)
  - cli/src/execute.rs        (run)

Machine values: i32/i64 payloads are Int, f32/f64 payloads are kept as their
raw bit patterns (Nat) since no instruction modelled here computes on them,
u8/u16 byte values are Nat.  Rust Vec-indexed stacks are Lean lists with the
head as the top of the stack.  The Rc heap of arrays is an explicit list of
arrays addressed by index.
-/

/-- TypeSignature from model/src/class.rs. -/
inductive TypeSignature where
  | Void
  | Boolean
  | Byte
  | Char
  | Short
  | Int
  | Long
  | Float
  | Double
  | Class (class_path : String)
  | Array (inner_type : TypeSignature)
deriving DecidableEq

/-- MethodSignature from model/src/class.rs. -/
structure MethodSignature where
  parameters : List TypeSignature
  return_type : TypeSignature
deriving DecidableEq

/-- Display for TypeSignature (model/src/class.rs, impl Display):
each primitive maps to its one-letter code, Class(p) to "L{p};" and
Array(t) to "[{t}". -/
def TypeSignature.toDescriptor : TypeSignature → String
  | .Void => "V"
  | .Boolean => "Z"
  | .Byte => "B"
  | .Char => "C"
  | .Short => "S"
  | .Int => "I"
  | .Long => "J"
  | .Float => "F"
  | .Double => "D"
  | .Class class_path => "L" ++ class_path ++ ";"
  | .Array inner_type => "[" ++ inner_type.toDescriptor

/-- Display for MethodSignature (model/src/class.rs): the parameter
descriptors joined with the empty separator, wrapped in parentheses,
followed by the return type descriptor. -/
def MethodSignature.toDescriptor (m : MethodSignature) : String :=
  "(" ++ (m.parameters.foldr (fun p acc => p.toDescriptor ++ acc) "") ++ ")"
    ++ m.return_type.toDescriptor

/-- Modelled from the spec: the descriptor grammar of section 4.2 scans a
class name up to the terminating semicolon.  Returns the name characters and
the remainder after the semicolon. -/
def scanClassName : List Char → Option (List Char × List Char)
  | [] => none
  | c :: cs =>
    if c = ';' then some ([], cs)
    else
      match scanClassName cs with
      | some (n, r) => some (c :: n, r)
      | none => none

/-- Modelled from the spec: parser for one type signature (section 4.2
grammar plus the V return code, which must be accepted for the stated
round-trip law to cover TypeSignature.Void).  Returns the parsed signature
and the unconsumed remainder. -/
def parseTypeSig : List Char → Option (TypeSignature × List Char)
  | [] => none
  | c :: cs =>
    if c = 'V' then some (.Void, cs)
    else if c = 'Z' then some (.Boolean, cs)
    else if c = 'B' then some (.Byte, cs)
    else if c = 'C' then some (.Char, cs)
    else if c = 'S' then some (.Short, cs)
    else if c = 'I' then some (.Int, cs)
    else if c = 'J' then some (.Long, cs)
    else if c = 'F' then some (.Float, cs)
    else if c = 'D' then some (.Double, cs)
    else if c = 'L' then
      match scanClassName cs with
      | some (n, r) => some (.Class (String.mk n), r)
      | none => none
    else if c = '[' then
      match parseTypeSig cs with
      | some (t, r) => some (.Array t, r)
      | none => none
    else none

/-- Modelled from the spec: parse the parameter list of a method descriptor
up to the closing parenthesis.  Recursion is fuelled; callers pass the input
length, which suffices because every parameter consumes at least one
character. -/
def parseParamList : Nat → List Char → Option (List TypeSignature × List Char)
  | _, [] => none
  | fuel, c :: cs =>
    if c = ')' then some ([], cs)
    else
      match fuel with
      | 0 => none
      | f + 1 =>
        match parseTypeSig (c :: cs) with
        | some (t, r) =>
          match parseParamList f r with
          | some (ts, r2) => some (t :: ts, r2)
          | none => none
        | none => none

/-- Modelled from the spec: parse_descriptor for a field/type descriptor
(section 4.2).  The whole string must be consumed. -/
def parse_descriptor (s : String) : Option TypeSignature :=
  match parseTypeSig s.data with
  | some (t, []) => some t
  | _ => none

/-- Modelled from the spec: parse_descriptor for a method descriptor,
"(" params ")" return (section 4.2).  The whole string must be consumed. -/
def parse_method_descriptor (s : String) : Option MethodSignature :=
  match s.data with
  | '(' :: cs =>
    match parseParamList cs.length cs with
    | some (ts, r) =>
      match parseTypeSig r with
      | some (ret, []) => some { parameters := ts, return_type := ret }
      | _ => none
    | none => none
  | _ => none

/-- Class names free of the semicolon that terminates them in descriptor
syntax.  The descriptor round trip holds exactly on such signatures. -/
def TypeSignature.semicolonFreeNames : TypeSignature → Bool
  | .Class class_path => class_path.data.all (fun c => c ≠ ';')
  | .Array inner_type => inner_type.semicolonFreeNames
  | _ => true

/-- A method signature whose component class names are semicolon-free. -/
def MethodSignature.semicolonFreeNames (m : MethodSignature) : Bool :=
  m.parameters.all TypeSignature.semicolonFreeNames
    && m.return_type.semicolonFreeNames

/-- ClassConstant from model/src/class.rs.  String data carries the resolved
payloads; Float/Double payloads are the raw bit patterns. -/
inductive ClassConstant where
  | Unused
  | Class (name : String)
  | Fieldref (class_name : String) (field_name : String) (descriptor : TypeSignature)
  | Methodref (class_name : String) (method_name : String) (signature : MethodSignature)
  | InterfaceMethodref (class_name : String) (method_name : String) (signature : MethodSignature)
  | StringRef (value : String)
  | Integer (value : Int)
  | FloatBits (bits : Nat)
  | LongVal (value : Int)
  | DoubleBits (bits : Nat)
  | MethodNameAndType (name : String) (descriptor : MethodSignature)
  | FieldNameAndType (name : String) (descriptor : TypeSignature)
  | Utf8 (value : String)
  | MethodType (descriptor : MethodSignature)
  | Dynamic (attr_index : Nat) (name : String) (descriptor : MethodSignature)
  | InvokeDynamic (attr_index : Nat) (name : String) (descriptor : MethodSignature)
  | NotImplemented
deriving DecidableEq

/-- The slice of a parsed classfile needed by getstatic: its constant pool
(Vec of ClassConstant, slot 0 the Unused sentinel). -/
structure Classfile where
  constants : List ClassConstant
deriving DecidableEq

/-- VmPrimitive / Primitive: the tagged operand-stack and locals value
(spec section 3, VmValue).  Int/Long payloads are the mathematical integers
in i32/i64 range; Float/Double payloads are raw bit patterns; references are
heap indices.  TopHalf is the upper-slot placeholder of a category-2 value
(spec section 3). -/
inductive VmPrimitive where
  | Null
  | Int (v : Int)
  | Long (v : Int)
  | Float (bits : Nat)
  | Double (bits : Nat)
  | Arrayref (r : Nat)
  | Objectref (r : Nat)
  | ReturnAddress (pc : Nat)
  | TopHalf
deriving DecidableEq

/-- A heap array (vm/src): atype is the JVM primitive code (None for object
arrays), elements the backing Vec. -/
structure VmArray where
  atype : Option Nat
  elements : List VmPrimitive
deriving DecidableEq

/-- A frame's mutable parts used by the evaluators: locals and the operand
stack.  The list head is the top of the stack. -/
structure Frame where
  locals : List VmPrimitive
  stack : List VmPrimitive
deriving DecidableEq

/-- A VmThread as vm/src sees it: the frame stack (head = innermost frame,
the Vec's last element) and the heap of arrays the frames reference. -/
structure VmThread where
  frame_stack : List Frame
  heap : List VmArray
deriving DecidableEq

/-- The Vm slice used by getstatic: the static-field table, class name to
field name to value (src/vm). -/
structure Vm where
  class_statics : List (String × List (String × VmPrimitive))
deriving DecidableEq

/-- Outcome of one evaluator step.  Modelled from the spec: section 7
distinguishes Java-visible Throwables (which unwind through athrow
mechanics, javaThrow) from interpreter bugs (host panics that abort the VM,
hostPanic).  Rust panic-like exits (panic!, unwrap, assert_eq!, Vec index
out of bounds) all map to hostPanic. -/
inductive EvalResult (α : Type) where
  | ok (a : α)
  | hostPanic (msg : String)
  | javaThrow (exClass : String)
deriving DecidableEq

/-- True exactly on the javaThrow outcome. -/
def EvalResult.isJavaThrow : EvalResult α → Bool
  | .javaThrow _ => true
  | _ => false

/-- True exactly on the hostPanic outcome. -/
def EvalResult.isHostPanic : EvalResult α → Bool
  | .hostPanic _ => true
  | _ => false

/-- Modelled from the spec: stack_pop_double pops a category-2 double (the
top-half placeholder then the value slot); any other stack shape panics as a
fatal stack-type mismatch (spec section 4.7), rendered as none.  Returns the
double's bits and the popped frame. -/
def Frame.stack_pop_double (f : Frame) : Option (Nat × Frame) :=
  match f.stack with
  | .TopHalf :: .Double bits :: s => some (bits, { f with stack := s })
  | _ => none

/-- Modelled from the spec: stack_pop_int pops one Int slot; any other shape
panics as a fatal stack-type mismatch (spec section 4.7), rendered as
none. -/
def Frame.stack_pop_int (f : Frame) : Option (Int × Frame) :=
  match f.stack with
  | .Int v :: s => some (v, { f with stack := s })
  | _ => none

/-- Modelled from the spec: stack_pop_arrayref pops an array reference and
hands back the Rc to the heap array; in Rust its return type cannot carry
Null, so a Null or non-array slot is a fatal host panic, rendered as
none. -/
def Frame.stack_pop_arrayref (f : Frame) : Option (Nat × Frame) :=
  match f.stack with
  | .Arrayref r :: s => some (r, { f with stack := s })
  | _ => none

/-- Modelled from the spec: stack_pop_reference pops one reference slot
(Null, Arrayref or Objectref) and returns it as the Primitive it was; a
non-reference slot panics as a fatal stack-type mismatch, rendered as
none. -/
def Frame.stack_pop_reference (f : Frame) : Option (VmPrimitive × Frame) :=
  match f.stack with
  | .Null :: s => some (.Null, { f with stack := s })
  | .Arrayref r :: s => some (.Arrayref r, { f with stack := s })
  | .Objectref r :: s => some (.Objectref r, { f with stack := s })
  | _ => none

/-- Modelled from the spec: stack_push pushes one already-tagged value slot
(used by getstatic). -/
def Frame.stack_push (v : VmPrimitive) (f : Frame) : Frame :=
  { f with stack := v :: f.stack }

/-- Modelled from the spec: stack_push_long pushes a category-2 long as two
adjacent slots, the value slot then the top-half placeholder above it
(spec sections 3 and 4.7). -/
def Frame.stack_push_long (v : Int) (f : Frame) : Frame :=
  { f with stack := .TopHalf :: .Long v :: f.stack }

/-- Rust `as usize` on an i32 index: two's-complement reinterpretation into
the 64-bit unsigned range. -/
def i32_as_usize (i : Int) : Nat := (i % (2 : Int) ^ 64).toNat

/-- vm/src/eval/dastore.rs eval: pop the double value, the int index and the
arrayref (in that order), assert the array's atype is 7 (double), then write
Double(value) at the index.  Vec indexing out of bounds, a Null arrayref and
a failed assert are Rust panics (hostPanic); nothing raises a Java
exception. -/
def dastore_eval (vm_thread : VmThread) (pc : Nat) : EvalResult (VmThread × Nat) :=
  match vm_thread.frame_stack with
  | [] => .hostPanic "frame_stack.last_mut().unwrap() on empty frame stack"
  | frame :: frames =>
    match frame.stack_pop_double with
    | none => .hostPanic "stack_pop_double: stack-type mismatch"
    | some (value, f1) =>
      match f1.stack_pop_int with
      | none => .hostPanic "stack_pop_int: stack-type mismatch"
      | some (i, f2) =>
        let index := i32_as_usize i
        match f2.stack_pop_arrayref with
        | none => .hostPanic "stack_pop_arrayref: stack-type mismatch"
        | some (r, f3) =>
          match vm_thread.heap.get? r with
          | none => .hostPanic "dangling array reference"
          | some array =>
            match array.atype with
            | none => .hostPanic "Option::unwrap() on a None atype"
            | some a =>
              if a = 7 then
                if index < array.elements.length then
                  .ok ({ vm_thread with
                          frame_stack := f3 :: frames,
                          heap := vm_thread.heap.set r
                            { array with
                              elements := array.elements.set index (.Double value) } },
                       pc + 1)
                else .hostPanic "index out of bounds on array.elements"
              else .hostPanic "assertion failed: atype == 7"

/-- vm/src/eval/monitorenter.rs eval: pop one reference from the top frame's
stack; a Null receiver hits the literal panic (host abort, no Java
NullPointerException is constructed); otherwise nothing else changes and the
next pc is pc + 1. -/
def monitorenter_eval (vm : VmThread) (pc : Nat) : EvalResult (VmThread × Nat) :=
  match vm.frame_stack with
  | [] => .hostPanic "frame_stack.last_mut() on empty frame stack"
  | frame :: frames =>
    match frame.stack_pop_reference with
    | none => .hostPanic "stack_pop_reference: stack-type mismatch"
    | some (.Null, _) => .hostPanic "Not implemented -> throw NullPointerException"
    | some (_, f1) => .ok ({ vm with frame_stack := f1 :: frames }, pc + 1)

/-- src/vm/eval/getstatic.rs eval, parametrised over load_and_clinit_class
(defined outside src/): read the two operand bytes, build the big-endian
constant-pool index, require a Fieldref there, load-and-clinit the owner,
read the owner's static field from the updated Vm, push it, and continue at
pc + 3.  Every failing unwrap and the non-Fieldref arm are Rust panics. -/
def getstatic_eval (load_and_clinit_class : Vm → String → Vm)
    (vm : Vm) (cf : Classfile) (code : List Nat) (pc : Nat) (frame : Frame) :
    EvalResult (Vm × Frame × Nat) :=
  match code.get? (pc + 1) with
  | none => .hostPanic "code.get(pc+1).unwrap()"
  | some indexbyte1 =>
    match code.get? (pc + 2) with
    | none => .hostPanic "code.get(pc+2).unwrap()"
    | some indexbyte2 =>
      -- (indexbyte1 as u16) << 8 + indexbyte2; bytes are below 256 so the
      -- u16 shift loses nothing.
      let index := indexbyte1 * 256 + indexbyte2
      match cf.constants.get? index with
      | none => .hostPanic "class.constants.get(index).unwrap()"
      | some (.Fieldref class_path field_name _) =>
        let vm2 := load_and_clinit_class vm class_path
        match (vm2.class_statics.lookup class_path).bind (List.lookup field_name) with
        | none => .hostPanic "class_statics get().unwrap()"
        | some value => .ok (vm2, frame.stack_push value, pc + 3)
      | some _ => .hostPanic "Unexpected constant ref"

/-- src/vm/eval/lconst.rs eval: push the constant as a category-2 long and
continue at pc + 1. -/
def lconst_eval (val : Int) (pc : Nat) (frame : Frame) : Frame × Option Nat :=
  (frame.stack_push_long val, some (pc + 1))

/-- True exactly on the Fieldref constant. -/
def ClassConstant.isFieldref : ClassConstant → Bool
  | .Fieldref _ _ _ => true
  | _ => false

/-- A class-loader as the spec's section 4.3 interface: bytes by class
name. -/
def Loader : Type := String → Option (List Nat)

/-- Modelled from the spec: CompositeLoader queries its children in declared
order and the first Some wins (loader crate not in src/). -/
def composite_load (children : List Loader) (name : String) : Option (List Nat) :=
  match children with
  | [] => none
  | l :: ls =>
    match l name with
    | some bytes => some bytes
    | none => composite_load ls name

/-- One VmThread::new(..).invoke_method(..) performed by the entry point. -/
structure ThreadInvocation where
  thread_name : String
  class_name : String
  method_name : String
  method_descriptor : String
  is_virtual : Bool
deriving DecidableEq

/-- The observables of cli/src/execute.rs run: the composed class loader
handed to bootstrap_vm and the thread invocations issued. -/
structure RunOutcome where
  classloader : Loader
  thread_invocations : List ThreadInvocation

/-- cli/src/execute.rs MAIN_METHOD_NAME. -/
def MAIN_METHOD_NAME : String := "main"

/-- cli/src/execute.rs MAIN_METHOD_SIGNATURE. -/
def MAIN_METHOD_SIGNATURE : String := "([Ljava/lang/String;)V"

/-- cli/src/execute.rs run, parametrised over classloader_for_paths and the
runtime classloader (loader and rt crates not in src/): build the path
loader from the class paths (its failure is the .unwrap() panic, none),
compose runtime loader before path loader, bootstrap the VM with the
composite, and spawn one thread named Thread-0 that invokes
main([Ljava/lang/String;)V on the main class non-virtually. -/
def run (classloader_for_paths : List String → Option Loader)
    (runtime_classloader : Loader)
    (main_class : String) (class_paths : List String) : Option RunOutcome :=
  match classloader_for_paths class_paths with
  | none => none
  | some classloader =>
    some { classloader := composite_load [runtime_classloader, classloader],
           thread_invocations :=
             [{ thread_name := "Thread-0",
                class_name := main_class,
                method_name := MAIN_METHOD_NAME,
                method_descriptor := MAIN_METHOD_SIGNATURE,
                is_virtual := false }] }

theorem scanClassName_append (n rest : List Char)
    (h : n.all (fun c => c ≠ ';') = true) :
    scanClassName (n ++ ';' :: rest) = some (n, rest) := by
  induction n with
  | nil => simp [scanClassName]
  | cons c cs ih =>
    simp only [List.all_cons, Bool.and_eq_true, decide_eq_true_eq] at h
    simp [scanClassName, h.1, ih h.2]

theorem parseTypeSig_toDescriptor (t : TypeSignature)
    (h : t.semicolonFreeNames = true) (rest : List Char) :
    parseTypeSig (t.toDescriptor.data ++ rest) = some (t, rest) := by
  induction t with
  | Void => simp [TypeSignature.toDescriptor, parseTypeSig]
  | Boolean => simp [TypeSignature.toDescriptor, parseTypeSig]
  | Byte => simp [TypeSignature.toDescriptor, parseTypeSig]
  | Char => simp [TypeSignature.toDescriptor, parseTypeSig]
  | Short => simp [TypeSignature.toDescriptor, parseTypeSig]
  | Int => simp [TypeSignature.toDescriptor, parseTypeSig]
  | Long => simp [TypeSignature.toDescriptor, parseTypeSig]
  | Float => simp [TypeSignature.toDescriptor, parseTypeSig]
  | Double => simp [TypeSignature.toDescriptor, parseTypeSig]
  | Class p =>
    obtain ⟨pl⟩ := p
    simp only [TypeSignature.semicolonFreeNames] at h
    simp [TypeSignature.toDescriptor, parseTypeSig, String.data_append,
      scanClassName_append pl rest h]
  | Array t ih =>
    simp only [TypeSignature.semicolonFreeNames] at h
    simp [TypeSignature.toDescriptor, parseTypeSig, String.data_append, ih h]

theorem toDescriptor_head (t : TypeSignature) :
    ∃ c cc, t.toDescriptor.data = c :: cc ∧ c ≠ ')' := by
  cases t with
  | Void => exact ⟨'V', [], rfl, by decide⟩
  | Boolean => exact ⟨'Z', [], rfl, by decide⟩
  | Byte => exact ⟨'B', [], rfl, by decide⟩
  | Char => exact ⟨'C', [], rfl, by decide⟩
  | Short => exact ⟨'S', [], rfl, by decide⟩
  | Int => exact ⟨'I', [], rfl, by decide⟩
  | Long => exact ⟨'J', [], rfl, by decide⟩
  | Float => exact ⟨'F', [], rfl, by decide⟩
  | Double => exact ⟨'D', [], rfl, by decide⟩
  | Class p =>
    exact ⟨'L', p.data ++ [';'],
      by simp [TypeSignature.toDescriptor, String.data_append], by decide⟩
  | Array t =>
    exact ⟨'[', t.toDescriptor.data,
      by simp [TypeSignature.toDescriptor, String.data_append], by decide⟩

/-- The concatenation of the parameter descriptors, as the Display
implementation produces it. -/
def paramsDescriptor (ts : List TypeSignature) : String :=
  ts.foldr (fun p acc => p.toDescriptor ++ acc) ""

theorem paramsDescriptor_data (ts : List TypeSignature) :
    (paramsDescriptor ts).data = (ts.map (fun t => t.toDescriptor.data)).flatten := by
  induction ts with
  | nil => rfl
  | cons t ts ih =>
    show (t.toDescriptor ++ paramsDescriptor ts).data = _
    simp [String.data_append, ih]

theorem parseParamList_params (ts : List TypeSignature)
    (h : ts.all TypeSignature.semicolonFreeNames = true) :
    ∀ (fuel : Nat) (rest : List Char),
      (paramsDescriptor ts).data.length ≤ fuel →
      parseParamList fuel ((paramsDescriptor ts).data ++ ')' :: rest)
        = some (ts, rest) := by
  induction ts with
  | nil =>
    intro fuel rest _
    show parseParamList fuel (')' :: rest) = some ([], rest)
    cases fuel <;> simp [parseParamList]
  | cons t ts ih =>
    intro fuel rest hfuel
    simp only [List.all_cons, Bool.and_eq_true] at h
    obtain ⟨c, cc, hdata, hc⟩ := toDescriptor_head t
    have hsplit : (paramsDescriptor (t :: ts)).data
        = t.toDescriptor.data ++ (paramsDescriptor ts).data := by
      simp [paramsDescriptor, String.data_append]
    rw [hsplit] at hfuel ⊢
    rw [hdata] at hfuel ⊢
    cases fuel with
    | zero => simp at hfuel
    | succ f =>
      have hlen : (paramsDescriptor ts).data.length ≤ f := by
        simp only [List.length_append, List.length_cons] at hfuel
        omega
      have hparse : parseTypeSig ((c :: cc) ++ ((paramsDescriptor ts).data ++ ')' :: rest))
          = some (t, (paramsDescriptor ts).data ++ ')' :: rest) := by
        rw [← hdata]
        exact parseTypeSig_toDescriptor t h.1 _
      simp only [List.cons_append, List.append_assoc] at hparse ⊢
      simp [parseParamList, hc, hparse, ih h.2 f rest hlen]

theorem parse_descriptor_toDescriptor (t : TypeSignature)
    (h : t.semicolonFreeNames = true) :
    parse_descriptor t.toDescriptor = some t := by
  have := parseTypeSig_toDescriptor t h []
  rw [List.append_nil] at this
  simp [parse_descriptor, this]

theorem parse_method_descriptor_toDescriptor (m : MethodSignature)
    (h : m.semicolonFreeNames = true) :
    parse_method_descriptor m.toDescriptor = some m := by
  obtain ⟨ts, ret⟩ := m
  simp only [MethodSignature.semicolonFreeNames, Bool.and_eq_true] at h
  have hdata : (MethodSignature.toDescriptor ⟨ts, ret⟩).data
      = '(' :: ((paramsDescriptor ts).data ++ ')' :: ret.toDescriptor.data) := by
    simp [MethodSignature.toDescriptor, paramsDescriptor, String.data_append]
  have hret := parseTypeSig_toDescriptor ret h.2 []
  rw [List.append_nil] at hret
  have hps := parseParamList_params ts h.1
    ((paramsDescriptor ts).data ++ ')' :: ret.toDescriptor.data).length
    ret.toDescriptor.data (by simp)
  simp at hps
  simp [parse_method_descriptor, hdata, hps, hret]

theorem join_map_toDescriptor (ts : List TypeSignature) :
    String.join (ts.map TypeSignature.toDescriptor) = paramsDescriptor ts := by
  rw [String.join_eq]
  apply String.ext
  simp [paramsDescriptor_data, List.map_map]
  rfl

/-- C5: the Display implementation produces exactly the JVM descriptor
grammar: each primitive maps to its one-letter code, Class(p) to "L" p ";",
Array(t) to "[" followed by the display of t, and a MethodSignature to "("
followed by the concatenation of the parameter displays, ")", then the
return-type display. -/
theorem display_matches_jvm_grammar :
    TypeSignature.toDescriptor .Void = "V"
  ∧ TypeSignature.toDescriptor .Boolean = "Z"
  ∧ TypeSignature.toDescriptor .Byte = "B"
  ∧ TypeSignature.toDescriptor .Char = "C"
  ∧ TypeSignature.toDescriptor .Short = "S"
  ∧ TypeSignature.toDescriptor .Int = "I"
  ∧ TypeSignature.toDescriptor .Long = "J"
  ∧ TypeSignature.toDescriptor .Float = "F"
  ∧ TypeSignature.toDescriptor .Double = "D"
  ∧ (∀ p, TypeSignature.toDescriptor (.Class p) = "L" ++ p ++ ";")
  ∧ (∀ t, TypeSignature.toDescriptor (.Array t) = "[" ++ t.toDescriptor)
  ∧ (∀ m : MethodSignature,
      m.toDescriptor
        = "(" ++ String.join (m.parameters.map TypeSignature.toDescriptor) ++ ")"
            ++ m.return_type.toDescriptor) := by
  refine ⟨rfl, rfl, rfl, rfl, rfl, rfl, rfl, rfl, rfl,
    fun p => rfl, fun t => rfl, fun m => ?_⟩
  rw [join_map_toDescriptor]
  rfl

/-- C4 counterexample: a TypeSignature whose class name contains a semicolon
does not survive the display/parse round trip, because the descriptor
grammar terminates a class name at the first semicolon. -/
theorem descriptor_roundtrip_counterexample :
    parse_descriptor (TypeSignature.toDescriptor (.Class "x;y"))
      ≠ some (.Class "x;y") := by decide

/-- C4 (amended): for every TypeSignature and MethodSignature whose class
names are free of the semicolon character, parsing the formatted descriptor
returns the original value. -/
theorem descriptor_roundtrip :
    (∀ t : TypeSignature, t.semicolonFreeNames = true →
        parse_descriptor t.toDescriptor = some t)
  ∧ (∀ m : MethodSignature, m.semicolonFreeNames = true →
        parse_method_descriptor m.toDescriptor = some m) :=
  ⟨parse_descriptor_toDescriptor, parse_method_descriptor_toDescriptor⟩

theorem descriptor_roundtrip_witness :
    parse_descriptor
        (TypeSignature.toDescriptor (.Array (.Class "java/lang/Object")))
      = some (.Array (.Class "java/lang/Object"))
  ∧ parse_method_descriptor
        (MethodSignature.toDescriptor ⟨[.Int, .Class "java/lang/String"], .Void⟩)
      = some ⟨[.Int, .Class "java/lang/String"], .Void⟩ :=
  ⟨descriptor_roundtrip.1 _ (by decide), descriptor_roundtrip.2 _ (by decide)⟩

/-- C9: the lconst evaluator pushes its constant through the dedicated
category-2 long push, which occupies two adjacent stack slots; the locals
are untouched and the next pc is pc + 1. -/
theorem lconst_pushes_long :
    ∀ (val : Int) (pc : Nat) (frame : Frame),
      lconst_eval val pc frame = (frame.stack_push_long val, some (pc + 1))
    ∧ (lconst_eval val pc frame).1.stack
        = .TopHalf :: .Long val :: frame.stack
    ∧ (lconst_eval val pc frame).1.locals = frame.locals
    ∧ (lconst_eval val pc frame).1.stack.length = frame.stack.length + 2 := by
  intro val pc frame
  exact ⟨rfl, rfl, rfl, by simp [lconst_eval, Frame.stack_push_long]⟩

/-- A thread about to run dastore with a Null where the arrayref belongs. -/
def dastoreNullState : VmThread :=
  { frame_stack := [{ locals := [], stack := [.TopHalf, .Double 0, .Int 0, .Null] }],
    heap := [] }

/-- A thread about to run dastore with index = 1 on a double array of
length 1, i.e. index == length. -/
def dastoreOobState : VmThread :=
  { frame_stack := [{ locals := [], stack := [.TopHalf, .Double 0, .Int 1, .Arrayref 0] }],
    heap := [{ atype := some 7, elements := [.Double 0] }] }

/-- A thread about to run dastore on an int array (atype 10) instead of a
double array. -/
def dastoreWrongAtypeState : VmThread :=
  { frame_stack := [{ locals := [], stack := [.TopHalf, .Double 0, .Int 0, .Arrayref 0] }],
    heap := [{ atype := some 10, elements := [.Int 0] }] }

/-- A thread about to run dastore on a valid in-bounds double store. -/
def dastoreOkState : VmThread :=
  { frame_stack := [{ locals := [], stack := [.TopHalf, .Double 9, .Int 0, .Arrayref 0] }],
    heap := [{ atype := some 7, elements := [.Double 0] }] }

/-- C1 counterexample: on a null array reference the dastore evaluator
host-panics instead of raising a Java NullPointerException, and on index ==
length it host-panics instead of raising ArrayIndexOutOfBoundsException; no
Java-level exception is produced at either input. -/
theorem dastore_exceptions_counterexample :
    EvalResult.isJavaThrow (dastore_eval dastoreNullState 0) = false
  ∧ EvalResult.isHostPanic (dastore_eval dastoreNullState 0) = true
  ∧ EvalResult.isJavaThrow (dastore_eval dastoreOobState 0) = false
  ∧ EvalResult.isHostPanic (dastore_eval dastoreOobState 0) = true := by decide


theorem dastore_eval_shape (locals rest : List VmPrimitive) (frames : List Frame)
    (heap : List VmArray) (bits : Nat) (i : Int) (r : Nat) (arr : VmArray)
    (pc : Nat) (hr : heap.get? r = some arr) :
    dastore_eval
        ⟨⟨locals, .TopHalf :: .Double bits :: .Int i :: .Arrayref r :: rest⟩ :: frames,
         heap⟩ pc
      = match arr.atype with
        | none => .hostPanic "Option::unwrap() on a None atype"
        | some a =>
          if a = 7 then
            if i32_as_usize i < arr.elements.length then
              .ok (⟨⟨locals, rest⟩ :: frames,
                    heap.set r
                      { arr with
                        elements :=
                          arr.elements.set (i32_as_usize i) (.Double bits) }⟩,
                   pc + 1)
            else .hostPanic "index out of bounds on array.elements"
          else .hostPanic "assertion failed: atype == 7" := by
  simp only [dastore_eval, Frame.stack_pop_double, Frame.stack_pop_int,
    Frame.stack_pop_arrayref, hr]

/-- C1 (amended): the dastore evaluator pops the value, then the index, then
the array reference from the operand stack; a null array reference aborts
the host with a panic (not a Java NullPointerException), an index that is
negative or not less than the array length aborts the host with a panic (not
a Java ArrayIndexOutOfBoundsException), and no execution of the evaluator
ever yields a Java-level exception. -/
theorem dastore_pops_and_aborts :
    (∀ (t : VmThread) (pc : Nat),
      EvalResult.isJavaThrow (dastore_eval t pc) = false)
  ∧ (∀ (locals rest : List VmPrimitive) (frames : List Frame)
       (heap : List VmArray) (bits : Nat) (i : Int) (pc : Nat),
      EvalResult.isHostPanic
        (dastore_eval
          ⟨⟨locals, .TopHalf :: .Double bits :: .Int i :: .Null :: rest⟩ :: frames,
           heap⟩ pc) = true)
  ∧ (∀ (locals rest : List VmPrimitive) (frames : List Frame)
       (heap : List VmArray) (bits : Nat) (i : Int) (r : Nat) (arr : VmArray)
       (pc : Nat),
      heap.get? r = some arr →
      ¬ i32_as_usize i < arr.elements.length →
      EvalResult.isHostPanic
        (dastore_eval
          ⟨⟨locals, .TopHalf :: .Double bits :: .Int i :: .Arrayref r :: rest⟩ :: frames,
           heap⟩ pc) = true)
  ∧ (∀ (locals rest : List VmPrimitive) (frames : List Frame)
       (heap : List VmArray) (bits : Nat) (i : Int) (r : Nat) (arr : VmArray)
       (pc : Nat),
      heap.get? r = some arr →
      arr.atype = some 7 →
      i32_as_usize i < arr.elements.length →
      dastore_eval
          ⟨⟨locals, .TopHalf :: .Double bits :: .Int i :: .Arrayref r :: rest⟩ :: frames,
           heap⟩ pc
        = .ok (⟨⟨locals, rest⟩ :: frames,
                heap.set r
                  { arr with
                    elements := arr.elements.set (i32_as_usize i) (.Double bits) }⟩,
               pc + 1)) := by
  refine ⟨?_, ?_, ?_, ?_⟩
  · intro t pc
    unfold dastore_eval
    repeat' split
    all_goals first
    | rfl
    | (dsimp only []; split <;> rfl)
  · intro locals rest frames heap bits i pc
    rfl
  · intro locals rest frames heap bits i r arr pc hr hb
    rw [dastore_eval_shape locals rest frames heap bits i r arr pc hr]
    cases arr.atype with
    | none => rfl
    | some a =>
      by_cases h7 : a = 7
      · subst h7
        simp [hb, EvalResult.isHostPanic]
      · simp [h7, EvalResult.isHostPanic]
  · intro locals rest frames heap bits i r arr pc hr h7 hb
    rw [dastore_eval_shape locals rest frames heap bits i r arr pc hr, h7]
    simp [hb]

theorem dastore_pops_and_aborts_witness :
    EvalResult.isJavaThrow (dastore_eval dastoreOkState 0) = false
  ∧ EvalResult.isHostPanic (dastore_eval dastoreNullState 0) = true
  ∧ EvalResult.isHostPanic (dastore_eval dastoreOobState 0) = true
  ∧ dastore_eval dastoreOkState 0
      = .ok (⟨[⟨[], []⟩], [{ atype := some 7, elements := [.Double 9] }]⟩, 1) := by
  refine ⟨dastore_pops_and_aborts.1 dastoreOkState 0,
    dastore_pops_and_aborts.2.1 [] [] [] [] 0 0 0,
    dastore_pops_and_aborts.2.2.1 [] [] [] [⟨some 7, [.Double 0]⟩] 0 1 0
      ⟨some 7, [.Double 0]⟩ 0 rfl (by decide),
    ?_⟩
  have h := dastore_pops_and_aborts.2.2.2 [] [] [] [⟨some 7, [.Double 0]⟩] 9 0 0
    ⟨some 7, [.Double 0]⟩ 0 rfl rfl (by decide)
  simpa [dastoreOkState, i32_as_usize] using h

theorem dastore_wrong_atype_panics (locals rest : List VmPrimitive)
    (frames : List Frame) (heap : List VmArray) (bits : Nat) (i : Int)
    (r : Nat) (arr : VmArray) (pc : Nat)
    (hr : heap.get? r = some arr) (hne : arr.atype ≠ some 7) :
    EvalResult.isHostPanic
      (dastore_eval
        ⟨⟨locals, .TopHalf :: .Double bits :: .Int i :: .Arrayref r :: rest⟩ :: frames,
         heap⟩ pc) = true := by
  rw [dastore_eval_shape locals rest frames heap bits i r arr pc hr]
  cases harr : arr.atype with
  | none => rfl
  | some a =>
    have h7 : a ≠ 7 := fun h => hne (by rw [harr, h])
    simp [h7, EvalResult.isHostPanic]

/-- C6: whenever the dastore evaluator reaches the element write (returns
ok), the popped array's atype is 7, the JVM code for double; for any array
whose atype is anything else (or missing) the assert aborts the host. -/
theorem dastore_asserts_atype_seven :
    (∀ (locals rest : List VmPrimitive) (frames : List Frame)
       (heap : List VmArray) (bits : Nat) (i : Int) (r : Nat) (arr : VmArray)
       (pc : Nat),
      heap.get? r = some arr →
      arr.atype ≠ some 7 →
      EvalResult.isHostPanic
        (dastore_eval
          ⟨⟨locals, .TopHalf :: .Double bits :: .Int i :: .Arrayref r :: rest⟩ :: frames,
           heap⟩ pc) = true)
  ∧ (∀ (locals rest : List VmPrimitive) (frames : List Frame)
       (heap : List VmArray) (bits : Nat) (i : Int) (r : Nat) (arr : VmArray)
       (pc : Nat) (out : VmThread × Nat),
      heap.get? r = some arr →
      dastore_eval
          ⟨⟨locals, .TopHalf :: .Double bits :: .Int i :: .Arrayref r :: rest⟩ :: frames,
           heap⟩ pc = .ok out →
      arr.atype = some 7) := by
  constructor
  · exact dastore_wrong_atype_panics
  · intro locals rest frames heap bits i r arr pc out hr hok
    by_contra hne
    have h := dastore_wrong_atype_panics locals rest frames heap bits i r arr pc hr hne
    rw [hok] at h
    simp [EvalResult.isHostPanic] at h

theorem dastore_asserts_atype_seven_witness :
    EvalResult.isHostPanic (dastore_eval dastoreWrongAtypeState 0) = true
  ∧ (VmArray.mk (some 7) [VmPrimitive.Double 0]).atype = some 7 := by
  refine ⟨dastore_asserts_atype_seven.1 [] [] [] [⟨some 10, [.Int 0]⟩] 0 0 0
      ⟨some 10, [.Int 0]⟩ 0 rfl (by decide),
    dastore_asserts_atype_seven.2 [] [] [] [⟨some 7, [.Double 0]⟩] 9 0 0
      ⟨some 7, [.Double 0]⟩ 0
      (⟨[⟨[], []⟩], [⟨some 7, [.Double 9]⟩]⟩, 1) rfl (by decide)⟩

/-- A thread about to run monitorenter on a Null receiver. -/
def monitorenterNullState : VmThread :=
  { frame_stack := [{ locals := [], stack := [.Null] }], heap := [] }

/-- C2: at a Null receiver the monitorenter evaluator aborts the host
process with the literal not-implemented panic instead of raising a Java
NullPointerException; the result is not a Java-level throw. -/
theorem monitorenter_null_panics :
    monitorenter_eval monitorenterNullState 0
      = .hostPanic "Not implemented -> throw NullPointerException"
  ∧ EvalResult.isJavaThrow (monitorenter_eval monitorenterNullState 0) = false := by
  exact ⟨rfl, rfl⟩

/-- C3: when the two operand bytes decode big-endian to a constant-pool
index holding a Fieldref, the getstatic evaluator first runs
load_and_clinit_class on the owner, then reads the (owner, field) entry of
the updated Vm's static table, pushes that value onto the operand stack and
continues at pc + 3. -/
theorem getstatic_reads_initialized_static :
    ∀ (load_and_clinit_class : Vm → String → Vm) (vm : Vm) (cf : Classfile)
      (code : List Nat) (pc : Nat) (frame : Frame) (b1 b2 : Nat)
      (owner field_name : String) (ty : TypeSignature) (value : VmPrimitive),
      code.get? (pc + 1) = some b1 →
      code.get? (pc + 2) = some b2 →
      cf.constants.get? (b1 * 256 + b2) = some (.Fieldref owner field_name ty) →
      (((load_and_clinit_class vm owner).class_statics.lookup owner).bind
          (List.lookup field_name)) = some value →
      getstatic_eval load_and_clinit_class vm cf code pc frame
        = .ok (load_and_clinit_class vm owner, frame.stack_push value, pc + 3) := by
  intro lc vm cf code pc frame b1 b2 owner field_name ty value h1 h2 h3 h4
  simp only [getstatic_eval, h1, h2, h3, h4]

/-- A stand-in for load_and_clinit_class whose initialization effect is to
install one static field f = 42 on the requested class. -/
def clinitStub : Vm → String → Vm :=
  fun _ name => ⟨[(name, [("f", .Int 42)])]⟩

theorem getstatic_reads_initialized_static_witness :
    getstatic_eval clinitStub ⟨[]⟩ ⟨[.Unused, .Fieldref "A" "f" .Int]⟩
        [178, 0, 1] 0 ⟨[], []⟩
      = .ok (⟨[("A", [("f", .Int 42)])]⟩, ⟨[], [.Int 42]⟩, 3) := by
  have h := getstatic_reads_initialized_static clinitStub ⟨[]⟩
    ⟨[.Unused, .Fieldref "A" "f" .Int]⟩ [178, 0, 1] 0 ⟨[], []⟩ 0 1
    "A" "f" .Int (.Int 42) rfl rfl rfl (by decide)
  simpa [clinitStub, Frame.stack_push] using h

/-- C10: the getstatic evaluator never raises a Java-level exception; when
the decoded constant-pool entry is not a Fieldref, or the owner or field is
missing from the static table after initialization, it aborts the VM with a
host-level panic. -/
theorem getstatic_panics_never_throws :
    ∀ (load_and_clinit_class : Vm → String → Vm) (vm : Vm) (cf : Classfile)
      (code : List Nat) (pc : Nat) (frame : Frame),
      EvalResult.isJavaThrow
        (getstatic_eval load_and_clinit_class vm cf code pc frame) = false
    ∧ (∀ b1 b2 : Nat,
        code.get? (pc + 1) = some b1 →
        code.get? (pc + 2) = some b2 →
        ((∃ c, cf.constants.get? (b1 * 256 + b2) = some c ∧ c.isFieldref = false)
          ∨ (∃ owner field_name ty,
              cf.constants.get? (b1 * 256 + b2)
                = some (.Fieldref owner field_name ty)
            ∧ (((load_and_clinit_class vm owner).class_statics.lookup owner).bind
                  (List.lookup field_name)) = none)) →
        EvalResult.isHostPanic
          (getstatic_eval load_and_clinit_class vm cf code pc frame) = true) := by
  intro lc vm cf code pc frame
  constructor
  · simp only [getstatic_eval]
    repeat' split
    all_goals rfl
  · intro b1 b2 h1 h2 hbad
    rcases hbad with ⟨c, hc, hnf⟩ | ⟨owner, field_name, ty, hc, hmiss⟩
    · simp only [getstatic_eval, h1, h2, hc]
      cases c with
      | Fieldref a b d => simp [ClassConstant.isFieldref] at hnf
      | _ => rfl
    · simp only [getstatic_eval, h1, h2, hc, hmiss]
      rfl

theorem getstatic_panics_never_throws_witness :
    EvalResult.isJavaThrow
        (getstatic_eval clinitStub ⟨[]⟩ ⟨[.Integer 5]⟩ [178, 0, 0] 0 ⟨[], []⟩)
      = false
  ∧ EvalResult.isHostPanic
        (getstatic_eval clinitStub ⟨[]⟩ ⟨[.Integer 5]⟩ [178, 0, 0] 0 ⟨[], []⟩)
      = true := by
  have h := getstatic_panics_never_throws clinitStub ⟨[]⟩ ⟨[.Integer 5]⟩
    [178, 0, 0] 0 ⟨[], []⟩
  exact ⟨h.1, h.2 0 0 rfl rfl (Or.inl ⟨.Integer 5, rfl, rfl⟩)⟩

/-- C7: the run entry point composes the runtime loader before the path
loader, and the composite returns the first child's Some result, so on any
class name the runtime loader's bytes win and the path loader is only
consulted when the runtime loader returns none. -/
theorem run_runtime_loader_precedence :
    ∀ (classloader_for_paths : List String → Option Loader)
      (runtime_classloader path_loader : Loader)
      (main_class : String) (class_paths : List String) (out : RunOutcome)
      (name : String),
      classloader_for_paths class_paths = some path_loader →
      run classloader_for_paths runtime_classloader main_class class_paths
        = some out →
      out.classloader name
        = match runtime_classloader name with
          | some bytes => some bytes
          | none => path_loader name := by
  intro cfp rtl pl mc cps out name h1 h2
  simp only [run, h1, Option.some.injEq] at h2
  subst h2
  simp only [composite_load]
  cases rtl name with
  | some bytes => rfl
  | none => cases pl name with
    | some bytes => rfl
    | none => rfl

/-- The runtime loader of the witness: serves java/lang/Object only. -/
def rtLoader0 : Loader :=
  fun name => if name = "java/lang/Object" then some [1] else none

/-- The path loader of the witness: also serves java/lang/Object, with
different bytes. -/
def pathLoader0 : Loader :=
  fun name => if name = "java/lang/Object" then some [2] else none

/-- The outcome run produces for the witness loaders. -/
def runOut0 : RunOutcome :=
  { classloader := composite_load [rtLoader0, pathLoader0],
    thread_invocations :=
      [{ thread_name := "Thread-0", class_name := "Main",
         method_name := MAIN_METHOD_NAME,
         method_descriptor := MAIN_METHOD_SIGNATURE,
         is_virtual := false }] }

theorem run_runtime_loader_precedence_witness :
    runOut0.classloader "java/lang/Object" = some [1] := by
  have h := run_runtime_loader_precedence (fun _ => some pathLoader0) rtLoader0
    pathLoader0 "Main" [] runOut0 "java/lang/Object" rfl rfl
  simpa [rtLoader0] using h

/-- C8: run spawns exactly one VM thread, named Thread-0, which invokes the
method main with descriptor ([Ljava/lang/String;)V on the given main class
non-virtually. -/
theorem run_spawns_single_main_thread :
    ∀ (classloader_for_paths : List String → Option Loader)
      (runtime_classloader : Loader)
      (main_class : String) (class_paths : List String) (out : RunOutcome),
      run classloader_for_paths runtime_classloader main_class class_paths
        = some out →
      out.thread_invocations
        = [{ thread_name := "Thread-0", class_name := main_class,
             method_name := "main",
             method_descriptor := "([Ljava/lang/String;)V",
             is_virtual := false }] := by
  intro cfp rtl mc cps out h
  cases hcl : cfp cps with
  | none => simp [run, hcl] at h
  | some pl =>
    simp only [run, hcl, Option.some.injEq] at h
    subst h
    rfl

theorem run_spawns_single_main_thread_witness :
    runOut0.thread_invocations
      = [{ thread_name := "Thread-0", class_name := "Main",
           method_name := "main",
           method_descriptor := "([Ljava/lang/String;)V",
           is_virtual := false }] :=
  run_spawns_single_main_thread (fun _ => some pathLoader0) rtLoader0
    "Main" [] runOut0 rfl
